import Mathlib

/-!
Verification of the BluCollarBookings payment-gateway server.

Shallow embedding of the Express handlers in the current server source
(`src/unnamed/part_001`): each HTTP handler becomes a pure function from
its parsed request fields, the external directory state, and oracles for
the payment processor's responses, to a triple
`(response, directory-after, trace of external calls)`.

JavaScript truthiness is modelled explicitly: a missing body field is
`none`, a present field is `some v`; `!x` on a string is true exactly for
the empty string, on a number exactly for zero, and the database read of
an absent key yields `null` (modelled `none`).
-/

namespace BluCollar

/-- The Account Directory: company identifier to connected-account id,
backed by the external store (`users/companies/{uuid}/companySettings/stripeAccountId`). -/
abbrev Dir := List (String × String)

/-- Read of `users/companies/{u}/companySettings/stripeAccountId`:
`snapshot.val()` is `null` (`none`) when the key is absent. -/
def dirGet : Dir → String → Option String
  | [], _ => none
  | (k, v) :: rest, u => if k = u then some v else dirGet rest u

/-- Write of `stripeAccountId` under `users/companies/{u}/companySettings`
(the `update({stripeAccountId})` call). -/
def dirSet (d : Dir) (u a : String) : Dir := (u, a) :: d

/-- JavaScript truthiness of an optional string field:
`undefined`, `null` and `""` are falsy. -/
def truthyS : Option String → Bool
  | none => false
  | some s => s != ""

/-- JavaScript truthiness of an optional numeric field:
`undefined`, `null` and `0` are falsy. -/
def truthyN : Option Int → Bool
  | none => false
  | some n => n != 0

/-- JavaScript `x || null` applied to an optional string. -/
def jsOrNull : Option String → Option String
  | none => none
  | some s => if s = "" then none else some s

/-- The argument object of `stripe.paymentIntents.create` as built by the handler:
`transfer_dest` is `some a` exactly when `transfer_data: { destination: a }` is attached. -/
structure PaymentIntentData where
  amount : Int
  currency : String
  customer : String
  payment_method : String
  confirm : Bool
  transfer_dest : Option String
deriving DecidableEq, Repr

/-- One external side effect: a directory read/write or a payment-processor call. -/
inductive ExtCall where
  | dirRead (companyUUID : String)
  | dirWrite (companyUUID : String) (accountId : String)
  | piCreate (data : PaymentIntentData)
  | accountsCreate
  | linkCreate (accountId : String) (companyUUID : String)
  | accountsRetrieve (accountId : String)
  | customersCreate (email : String) (name : String)
  | setupIntentsCreate (customerId : String)
deriving DecidableEq, Repr

end BluCollar

namespace BluCollar

/-- What `stripe.paymentIntents.create` returns on success. -/
structure PIResult where
  client_secret : String
  status : String
deriving DecidableEq, Repr

/-- JSON response of `POST /create-payment-intent`. -/
inductive PIResponse where
  | badRequest (error : String)
  | serverError (error : String)
  | success (clientSecret : String) (status : String) (awardedTokens : Int)
  | nonSuccess (clientSecret : String) (status : String)
deriving DecidableEq, Repr

/-- Parsed body of `POST /create-payment-intent`. -/
structure PIBody where
  amount : Option Int
  currency : Option String
  customerId : Option String
  paymentMethodId : Option String
  tokenAmount : Option Int
  companyUUID : Option String
deriving DecidableEq, Repr

/-- The guard `!amount || !currency || !customerId || !paymentMethodId`. -/
def piMissing (b : PIBody) : Bool :=
  !truthyN b.amount || !truthyS b.currency || !truthyS b.customerId || !truthyS b.paymentMethodId

/-- The `stripeAccountId` lookup of the payment-intent handler:
read the directory only when `companyUUID` is truthy, else stay `null`. -/
def piAccountLookup (b : PIBody) (d : Dir) : Option String :=
  if truthyS b.companyUUID then dirGet d (b.companyUUID.getD "") else none

/-- The `paymentIntentData` object the handler passes to the processor:
`transfer_data` is attached only when the looked-up account id is truthy. -/
def piPayload (b : PIBody) (d : Dir) : PaymentIntentData :=
  let stripeAccountId := piAccountLookup b d
  { amount := b.amount.getD 0,
    currency := b.currency.getD "",
    customer := b.customerId.getD "",
    payment_method := b.paymentMethodId.getD "",
    confirm := true,
    transfer_dest := if truthyS stripeAccountId then stripeAccountId else none }

/-- The directory reads the payment-intent handler performs before the processor call. -/
def piLookupTrace (b : PIBody) : List ExtCall :=
  if truthyS b.companyUUID then [ExtCall.dirRead (b.companyUUID.getD "")] else []

/-- Handler of `POST /create-payment-intent` (src/unnamed/part_001 lines 41 to 93). -/
def createPaymentIntent (b : PIBody) (d : Dir)
    (stripePI : PaymentIntentData → Except String PIResult) :
    PIResponse × Dir × List ExtCall :=
  if piMissing b then
    (.badRequest "Missing parameters", d, [])
  else
    let pid := piPayload b d
    let tr := piLookupTrace b ++ [ExtCall.piCreate pid]
    let resp : PIResponse :=
      match stripePI pid with
      | .error m => .serverError m
      | .ok r =>
        if r.status = "succeeded" then
          .success r.client_secret r.status
            (if truthyN b.tokenAmount then b.tokenAmount.getD 0 else 0)
        else
          .nonSuccess r.client_secret r.status
    (resp, d, tr)

/-- JSON response of `POST /stripe/connect`. -/
inductive ConnectResponse where
  | badRequest (error : String)
  | serverError (error : String)
  | ok (url : String)
deriving DecidableEq, Repr

/-- Handler of `POST /stripe/connect` (src/unnamed/part_001 lines 168 to 211):
check the directory, create and persist a connected account only when the
entry is absent, then request the hosted onboarding link.
`createAccount` models `stripe.accounts.create` (the id it would return),
`createLink` models `stripe.accountLinks.create` from account id and company uuid. -/
def stripeConnect (companyUUID : Option String) (d : Dir)
    (createAccount : Except String String)
    (createLink : String → String → Except String String) :
    ConnectResponse × Dir × List ExtCall :=
  if !truthyS companyUUID then
    (.badRequest "Missing company UUID", d, [])
  else
    let u := companyUUID.getD ""
    let found := dirGet d u
    if truthyS found then
      let aid := found.getD ""
      let tr := [ExtCall.dirRead u, ExtCall.linkCreate aid u]
      let resp : ConnectResponse :=
        match createLink aid u with
        | .error m => .serverError m
        | .ok url => .ok url
      (resp, d, tr)
    else
      match createAccount with
      | .error m => (.serverError m, d, [ExtCall.dirRead u, ExtCall.accountsCreate])
      | .ok aid =>
        let d2 := dirSet d u aid
        let tr := [ExtCall.dirRead u, ExtCall.accountsCreate,
                   ExtCall.dirWrite u aid, ExtCall.linkCreate aid u]
        let resp : ConnectResponse :=
          match createLink aid u with
          | .error m => .serverError m
          | .ok url => .ok url
        (resp, d2, tr)

/-- Rendering of an Express query parameter into a template literal
(`undefined` prints as the string "undefined"). -/
def showQuery : Option String → String
  | none => "undefined"
  | some s => s

/-- Handler of `GET /stripe/connect/success` (part_001 lines 214 to 221):
renders a terminal HTML page, touches nothing else. -/
def connectSuccess (companyUUID : Option String) (d : Dir) :
    String × Dir × List ExtCall :=
  ("<h1>✅ Stripe Connect onboarding completed for " ++ showQuery companyUUID ++ "</h1>",
   d, [])

/-- Handler of `GET /stripe/connect/refresh` (part_001 lines 224 to 230). -/
def connectRefresh (d : Dir) : String × Dir × List ExtCall :=
  ("<h1>⚠️ Onboarding was interrupted. Please try again.</h1>", d, [])

/-- What `stripe.accounts.retrieve` returns. -/
structure AccountInfo where
  id : String
  email : Option String
  business_type : Option String
  capabilities : String
  charges_enabled : Bool
  payouts_enabled : Bool
  requirements : String
deriving DecidableEq, Repr

/-- JSON body returned by the account-status handler on success. -/
structure AccountStatusJson where
  accountId : String
  email : Option String
  businessType : Option String
  capabilities : String
  chargesEnabled : Bool
  payoutsEnabled : Bool
  requirements : String
deriving DecidableEq, Repr

/-- JSON response of `GET /stripe/account-status/:companyUUID`. -/
inductive StatusResponse where
  | badRequest (error : String)
  | notFound (error : String)
  | serverError (error : String)
  | ok (body : AccountStatusJson)
deriving DecidableEq, Repr

/-- Handler of `GET /stripe/account-status/:companyUUID` (part_001 lines 233 to 265). -/
def accountStatus (companyUUID : String) (d : Dir)
    (retrieve : String → Except String AccountInfo) :
    StatusResponse × Dir × List ExtCall :=
  if companyUUID = "" then
    (.badRequest "Missing company UUID", d, [])
  else
    let found := dirGet d companyUUID
    if truthyS found then
      let aid := found.getD ""
      let tr := [ExtCall.dirRead companyUUID, ExtCall.accountsRetrieve aid]
      let resp : StatusResponse :=
        match retrieve aid with
        | .error m => .serverError m
        | .ok a =>
          .ok { accountId := a.id,
                email := jsOrNull a.email,
                businessType := jsOrNull a.business_type,
                capabilities := a.capabilities,
                chargesEnabled := a.charges_enabled,
                payoutsEnabled := a.payouts_enabled,
                requirements := a.requirements }
      (resp, d, tr)
    else
      (.notFound "No Stripe account linked", d, [ExtCall.dirRead companyUUID])

/-- JSON response of `POST /create-stripe-customer`. -/
inductive CustomerResponse where
  | badRequest (error : String)
  | serverError (error : String)
  | ok (customerId : String)
deriving DecidableEq, Repr

/-- Handler of `POST /create-stripe-customer` (part_001 lines 96 to 114). -/
def createStripeCustomer (email firstName lastName : Option String) (d : Dir)
    (create : String → String → Except String String) :
    CustomerResponse × Dir × List ExtCall :=
  if !truthyS email then
    (.badRequest "Missing email", d, [])
  else
    let e := email.getD ""
    let name := ((firstName.getD "") ++ " " ++ (lastName.getD "")).trim
    let resp : CustomerResponse :=
      match create e name with
      | .error m => .serverError m
      | .ok cid => .ok cid
    (resp, d, [ExtCall.customersCreate e name])

/-- JSON response of `POST /create-setup-intent`. -/
inductive SetupIntentResponse where
  | badRequest (error : String)
  | serverError (error : String)
  | ok (clientSecret : String)
deriving DecidableEq, Repr

/-- Handler of `POST /create-setup-intent` (part_001 lines 138 to 160). -/
def createSetupIntent (customerId : Option String) (d : Dir)
    (create : String → Except String String) :
    SetupIntentResponse × Dir × List ExtCall :=
  if !truthyS customerId then
    (.badRequest "Missing customer ID", d, [])
  else
    let c := customerId.getD ""
    let resp : SetupIntentResponse :=
      match create c with
      | .error m => .serverError m
      | .ok cs => .ok cs
    (resp, d, [ExtCall.setupIntentsCreate c])

/-- Number of `accounts.create` calls in a trace. -/
def countCreates : List ExtCall → Nat
  | [] => 0
  | ExtCall.accountsCreate :: rest => countCreates rest + 1
  | _ :: rest => countCreates rest

theorem dirGet_dirSet_self (d : Dir) (u a : String) :
    dirGet (dirSet d u a) u = some a := by
  simp [dirGet, dirSet]

theorem dirGet_dirSet_ne (d : Dir) (u k a : String) (h : u ≠ k) :
    dirGet (dirSet d u a) k = dirGet d k := by
  simp [dirGet, dirSet, h]

theorem piMissing_eq_not_all (b : PIBody) :
    piMissing b =
      !(truthyN b.amount && truthyS b.currency &&
        truthyS b.customerId && truthyS b.paymentMethodId) := by
  simp only [piMissing]
  cases truthyN b.amount <;> cases truthyS b.currency <;>
    cases truthyS b.customerId <;> cases truthyS b.paymentMethodId <;> rfl

theorem jsOrNull_eq_self (o : Option String) (h : o ≠ some "") : jsOrNull o = o := by
  cases o with
  | none => rfl
  | some s =>
    have hs : s ≠ "" := fun hh => h (by rw [hh])
    simp [jsOrNull, hs]

/-- Claim C9: `GET /stripe/connect/success` and `GET /stripe/connect/refresh`
render terminal HTML pages and leave the directory state completely unchanged:
neither handler performs any directory write (or any external call at all). -/
theorem connect_terminal_pages_frame (q : Option String) (d : Dir) :
    (connectSuccess q d).2.1 = d ∧
    (connectRefresh d).2.1 = d ∧
    (∀ u a, ExtCall.dirWrite u a ∉ (connectSuccess q d).2.2) ∧
    (∀ u a, ExtCall.dirWrite u a ∉ (connectRefresh d).2.2) ∧
    (connectSuccess q d).1 =
      "<h1>✅ Stripe Connect onboarding completed for " ++ showQuery q ++ "</h1>" ∧
    (connectRefresh d).1 = "<h1>⚠️ Onboarding was interrupted. Please try again.</h1>" := by
  refine ⟨rfl, rfl, ?_, ?_, rfl, rfl⟩ <;> intro u a <;> simp [connectSuccess, connectRefresh]

/-- Witness for C9 at a concrete query and directory. -/
theorem connect_terminal_pages_frame_witness :
    (connectSuccess (some "co_1") [("co_1", "acct_7")]).2.1 = [("co_1", "acct_7")] ∧
    (connectRefresh [("co_1", "acct_7")]).2.1 = [("co_1", "acct_7")] ∧
    ExtCall.dirWrite "co_1" "acct_9" ∉
      (connectSuccess (some "co_1") [("co_1", "acct_7")]).2.2 := by
  obtain ⟨h1, h2, h3, _, _, _⟩ :=
    connect_terminal_pages_frame (some "co_1") [("co_1", "acct_7")]
  exact ⟨h1, h2, h3 "co_1" "acct_9"⟩

/-- Claim C5: for every mutating endpoint, a missing required body field yields
the 400 client-error response, the directory is untouched, and the external-call
trace is empty (no directory read or write, no processor call). -/
theorem missing_fields_reject_without_calls (b : PIBody)
    (email firstName lastName customerId companyUUID : Option String) (d : Dir)
    (spi : PaymentIntentData → Except String PIResult)
    (custCreate : String → String → Except String String)
    (siCreate : String → Except String String)
    (acctCreate : Except String String)
    (mkLink : String → String → Except String String) :
    ((b.amount = none ∨ b.currency = none ∨ b.customerId = none ∨ b.paymentMethodId = none) →
       createPaymentIntent b d spi = (.badRequest "Missing parameters", d, [])) ∧
    (email = none →
       createStripeCustomer email firstName lastName d custCreate =
         (.badRequest "Missing email", d, [])) ∧
    (customerId = none →
       createSetupIntent customerId d siCreate = (.badRequest "Missing customer ID", d, [])) ∧
    (companyUUID = none →
       stripeConnect companyUUID d acctCreate mkLink =
         (.badRequest "Missing company UUID", d, [])) := by
  refine ⟨?_, ?_, ?_, ?_⟩
  · intro h
    have hm : piMissing b = true := by
      rcases h with h | h | h | h <;> simp [piMissing, h, truthyN, truthyS]
    simp [createPaymentIntent, hm]
  · intro h; simp [createStripeCustomer, h, truthyS]
  · intro h; simp [createSetupIntent, h, truthyS]
  · intro h; simp [stripeConnect, h, truthyS]

/-- Witness for C5 at concrete inputs: each endpoint called with the required
field absent returns 400 with an empty trace. -/
theorem missing_fields_reject_without_calls_witness :
    createPaymentIntent ⟨none, some "usd", some "cus_1", some "pm_1", none, none⟩ []
        (fun _ => Except.ok ⟨"cs_1", "succeeded"⟩) =
      (.badRequest "Missing parameters", [], []) ∧
    createStripeCustomer none (some "A") (some "B") []
        (fun _ _ => Except.ok "cus_9") = (.badRequest "Missing email", [], []) ∧
    createSetupIntent none [] (fun _ => Except.ok "seti_1") =
      (.badRequest "Missing customer ID", [], []) ∧
    stripeConnect none [] (Except.ok "acct_1") (fun _ _ => Except.ok "https://onb") =
      (.badRequest "Missing company UUID", [], []) := by
  obtain ⟨h1, h2, h3, h4⟩ :=
    missing_fields_reject_without_calls
      ⟨none, some "usd", some "cus_1", some "pm_1", none, none⟩
      none (some "A") (some "B") none none []
      (fun _ => Except.ok ⟨"cs_1", "succeeded"⟩)
      (fun _ _ => Except.ok "cus_9") (fun _ => Except.ok "seti_1")
      (Except.ok "acct_1") (fun _ _ => Except.ok "https://onb")
  exact ⟨h1 (Or.inl rfl), h2 rfl, h3 rfl, h4 rfl⟩

/-- Claim C10: the payment-intent required-field check tests JavaScript
truthiness, so `amount = 0` or an empty-string `currency`, `customerId` or
`paymentMethodId` also yields 400 "Missing parameters"; the processor call is
reached exactly when all four fields are truthy. -/
theorem payment_intent_truthiness_check (b : PIBody) (d : Dir)
    (spi : PaymentIntentData → Except String PIResult) :
    (b.amount = some 0 →
       createPaymentIntent b d spi = (.badRequest "Missing parameters", d, [])) ∧
    (b.currency = some "" →
       createPaymentIntent b d spi = (.badRequest "Missing parameters", d, [])) ∧
    (b.customerId = some "" →
       createPaymentIntent b d spi = (.badRequest "Missing parameters", d, [])) ∧
    (b.paymentMethodId = some "" →
       createPaymentIntent b d spi = (.badRequest "Missing parameters", d, [])) ∧
    ((∃ p, ExtCall.piCreate p ∈ (createPaymentIntent b d spi).2.2) ↔
       (truthyN b.amount && truthyS b.currency &&
        truthyS b.customerId && truthyS b.paymentMethodId) = true) := by
  refine ⟨?_, ?_, ?_, ?_, ?_⟩
  · intro h
    have hm : piMissing b = true := by simp [piMissing, h, truthyN]
    simp [createPaymentIntent, hm]
  · intro h
    have hm : piMissing b = true := by simp [piMissing, h, truthyS]
    simp [createPaymentIntent, hm]
  · intro h
    have hm : piMissing b = true := by simp [piMissing, h, truthyS]
    simp [createPaymentIntent, hm]
  · intro h
    have hm : piMissing b = true := by simp [piMissing, h, truthyS]
    simp [createPaymentIntent, hm]
  · cases hm : piMissing b
    · apply iff_of_true
      · exact ⟨piPayload b d, by simp [createPaymentIntent, hm]⟩
      · have h1 := piMissing_eq_not_all b
        rw [hm] at h1
        cases hX : (truthyN b.amount && truthyS b.currency &&
            truthyS b.customerId && truthyS b.paymentMethodId)
        · rw [hX] at h1; simp at h1
        · rfl
    · apply iff_of_false
      · simp [createPaymentIntent, hm]
      · have h1 := piMissing_eq_not_all b
        rw [hm] at h1
        cases hX : (truthyN b.amount && truthyS b.currency &&
            truthyS b.customerId && truthyS b.paymentMethodId)
        · simp [hX]
        · rw [hX] at h1; simp at h1

/-- Claim C2: for every valid charge request whose `companyUUID` is present in
the directory (a nonempty stored account id), the single processor call carries
`transfer_data` whose destination equals exactly the directory's stored value. -/
theorem charge_destination_equals_directory (b : PIBody) (d : Dir) (u a : String)
    (spi : PaymentIntentData → Except String PIResult)
    (hval : piMissing b = false)
    (hu : b.companyUUID = some u) (hune : u ≠ "")
    (ha : dirGet d u = some a) (hane : a ≠ "") :
    (createPaymentIntent b d spi).2.2 =
      [ExtCall.dirRead u, ExtCall.piCreate (piPayload b d)] ∧
    (piPayload b d).transfer_dest = some a := by
  constructor
  · simp [createPaymentIntent, hval, piLookupTrace, hu, truthyS, hune]
  · simp [piPayload, piAccountLookup, hu, truthyS, hune, ha, hane]

/-- Witness for C2 at a concrete request and directory. -/
theorem charge_destination_equals_directory_witness :
    (createPaymentIntent
        ⟨some 5000, some "usd", some "cus_1", some "pm_1", none, some "co_1"⟩
        [("co_1", "acct_7")] (fun _ => Except.ok ⟨"cs_1", "succeeded"⟩)).2.2 =
      [ExtCall.dirRead "co_1",
       ExtCall.piCreate (piPayload
         ⟨some 5000, some "usd", some "cus_1", some "pm_1", none, some "co_1"⟩
         [("co_1", "acct_7")])] ∧
    (piPayload ⟨some 5000, some "usd", some "cus_1", some "pm_1", none, some "co_1"⟩
        [("co_1", "acct_7")]).transfer_dest = some "acct_7" := by
  exact charge_destination_equals_directory _ _ "co_1" "acct_7" _
    (by decide) rfl (by decide) rfl (by decide)

/-- Claim C3: a valid charge request without a `companyUUID` performs no
directory lookup and the processor call omits `transfer_data`; a valid charge
request whose `companyUUID` has no directory entry still performs the lookup
but proceeds as a plain non-split processor call, never a client error. -/
theorem charge_without_company_or_entry (b : PIBody) (d : Dir)
    (spi : PaymentIntentData → Except String PIResult)
    (hval : piMissing b = false) :
    (b.companyUUID = none →
       (createPaymentIntent b d spi).2.2 = [ExtCall.piCreate (piPayload b d)] ∧
       (piPayload b d).transfer_dest = none ∧
       (∀ u, ExtCall.dirRead u ∉ (createPaymentIntent b d spi).2.2)) ∧
    (∀ u, b.companyUUID = some u → u ≠ "" → dirGet d u = none →
       (createPaymentIntent b d spi).2.2 =
         [ExtCall.dirRead u, ExtCall.piCreate (piPayload b d)] ∧
       (piPayload b d).transfer_dest = none ∧
       (∀ e, (createPaymentIntent b d spi).1 ≠ PIResponse.badRequest e)) := by
  constructor
  · intro h
    refine ⟨?_, ?_, ?_⟩
    · simp [createPaymentIntent, hval, piLookupTrace, h, truthyS]
    · simp [piPayload, piAccountLookup, h, truthyS]
    · intro u
      simp [createPaymentIntent, hval, piLookupTrace, h, truthyS]
  · intro u hu hune hd
    refine ⟨?_, ?_, ?_⟩
    · simp [createPaymentIntent, hval, piLookupTrace, hu, truthyS, hune]
    · simp [piPayload, piAccountLookup, hu, truthyS, hune, hd]
    · intro e
      simp only [createPaymentIntent, hval]
      cases hr : spi (piPayload b d) with
      | error m => simp [hr]
      | ok r =>
        by_cases hs : r.status = "succeeded" <;> simp [hr, hs]

/-- Witness for C3: a charge with no company id, and one whose company id has
no directory entry, both reach the processor without fund-splitting. -/
theorem charge_without_company_or_entry_witness :
    ((createPaymentIntent ⟨some 5000, some "usd", some "cus_1", some "pm_1", none, none⟩ []
        (fun _ => Except.ok ⟨"cs_1", "succeeded"⟩)).2.2 =
      [ExtCall.piCreate (piPayload
        ⟨some 5000, some "usd", some "cus_1", some "pm_1", none, none⟩ [])] ∧
     (piPayload ⟨some 5000, some "usd", some "cus_1", some "pm_1", none, none⟩
        []).transfer_dest = none) ∧
    ((piPayload ⟨some 5000, some "usd", some "cus_1", some "pm_1", none, some "co_2"⟩
        [("co_1", "acct_7")]).transfer_dest = none ∧
     (∀ e, (createPaymentIntent
        ⟨some 5000, some "usd", some "cus_1", some "pm_1", none, some "co_2"⟩
        [("co_1", "acct_7")] (fun _ => Except.ok ⟨"cs_1", "succeeded"⟩)).1 ≠
          PIResponse.badRequest e)) := by
  constructor
  · obtain ⟨h1, h2, _⟩ :=
      (charge_without_company_or_entry
        ⟨some 5000, some "usd", some "cus_1", some "pm_1", none, none⟩ []
        (fun _ => Except.ok ⟨"cs_1", "succeeded"⟩) (by decide)).1 rfl
    exact ⟨h1, h2⟩
  · obtain ⟨_, h2, h3⟩ :=
      (charge_without_company_or_entry
        ⟨some 5000, some "usd", some "cus_1", some "pm_1", none, some "co_2"⟩
        [("co_1", "acct_7")]
        (fun _ => Except.ok ⟨"cs_1", "succeeded"⟩) (by decide)).2
        "co_2" rfl (by decide) (by decide)
    exact ⟨h2, h3⟩

/-- Claim C7: on a successful charge the response echoes the processor's status
and the caller-supplied `tokenAmount` unchanged in `awardedTokens`. -/
theorem success_response_echoes_tokens (b : PIBody) (d : Dir)
    (spi : PaymentIntentData → Except String PIResult) (r : PIResult) (t : Int)
    (hval : piMissing b = false)
    (hr : spi (piPayload b d) = Except.ok r)
    (hs : r.status = "succeeded")
    (ht : b.tokenAmount = some t) :
    (createPaymentIntent b d spi).1 = PIResponse.success r.client_secret r.status t := by
  by_cases h0 : t = 0
  · simp [createPaymentIntent, hval, hr, hs, ht, truthyN, h0]
  · simp [createPaymentIntent, hval, hr, hs, ht, truthyN, h0]

/-- Witness for C7: a succeeded charge with `tokenAmount = 12` answers
`awardedTokens = 12` and the processor's status. -/
theorem success_response_echoes_tokens_witness :
    (createPaymentIntent
        ⟨some 5000, some "usd", some "cus_1", some "pm_1", some 12, none⟩ []
        (fun _ => Except.ok ⟨"cs_1", "succeeded"⟩)).1 =
      PIResponse.success "cs_1" "succeeded" 12 := by
  exact success_response_echoes_tokens _ _ _ ⟨"cs_1", "succeeded"⟩ 12
    (by decide) rfl rfl rfl

/-- Witness for C10: amount 0 is rejected; a fully truthy body reaches the processor. -/
theorem payment_intent_truthiness_check_witness :
    createPaymentIntent ⟨some 0, some "", some "", some "", none, none⟩ []
        (fun _ => Except.ok ⟨"cs_1", "succeeded"⟩) =
      (.badRequest "Missing parameters", [], []) ∧
    (∃ p, ExtCall.piCreate p ∈
        (createPaymentIntent ⟨some 5000, some "usd", some "cus_1", some "pm_1", none, none⟩ []
          (fun _ => Except.ok ⟨"cs_1", "succeeded"⟩)).2.2) := by
  constructor
  · exact (payment_intent_truthiness_check _ _ _).1 rfl
  · exact (payment_intent_truthiness_check _ _ _).2.2.2.2.mpr (by decide)

/-- Claim C1: onboarding is idempotent under sequential execution. Starting
from a directory with no entry for `u`, two sequential `POST /stripe/connect`
calls (the second with an arbitrary account-creation oracle) both route the
onboarding link through the same connected account id, issue exactly one
`accounts.create` call between them, and the second call leaves the directory
state unchanged. -/
theorem onboarding_idempotent (u a url1 url2 : String) (d : Dir)
    (c2 : Except String String)
    (l1 l2 : String → String → Except String String)
    (hu : u ≠ "") (ha : a ≠ "")
    (hd : dirGet d u = none)
    (h1 : l1 a u = Except.ok url1) (h2 : l2 a u = Except.ok url2) :
    (stripeConnect (some u) d (Except.ok a) l1).1 = ConnectResponse.ok url1 ∧
    (stripeConnect (some u) (stripeConnect (some u) d (Except.ok a) l1).2.1 c2 l2).1 =
      ConnectResponse.ok url2 ∧
    ExtCall.linkCreate a u ∈ (stripeConnect (some u) d (Except.ok a) l1).2.2 ∧
    ExtCall.linkCreate a u ∈
      (stripeConnect (some u) (stripeConnect (some u) d (Except.ok a) l1).2.1 c2 l2).2.2 ∧
    countCreates ((stripeConnect (some u) d (Except.ok a) l1).2.2 ++
      (stripeConnect (some u) (stripeConnect (some u) d (Except.ok a) l1).2.1 c2 l2).2.2) = 1 ∧
    (stripeConnect (some u) (stripeConnect (some u) d (Except.ok a) l1).2.1 c2 l2).2.1 =
      (stripeConnect (some u) d (Except.ok a) l1).2.1 := by
  have hfirst : stripeConnect (some u) d (Except.ok a) l1 =
      (ConnectResponse.ok url1, dirSet d u a,
       [ExtCall.dirRead u, ExtCall.accountsCreate,
        ExtCall.dirWrite u a, ExtCall.linkCreate a u]) := by
    simp [stripeConnect, truthyS, hu, hd, h1]
  have hsecond : stripeConnect (some u) (dirSet d u a) c2 l2 =
      (ConnectResponse.ok url2, dirSet d u a,
       [ExtCall.dirRead u, ExtCall.linkCreate a u]) := by
    simp [stripeConnect, truthyS, hu, dirGet_dirSet_self, ha, h2]
  rw [hfirst]
  simp [hsecond, countCreates]

/-- Witness for C1 with a concrete company, account id and oracles. -/
theorem onboarding_idempotent_witness :
    (stripeConnect (some "co_1") [] (Except.ok "acct_1")
        (fun _ _ => Except.ok "https://onb/1")).1 = ConnectResponse.ok "https://onb/1" ∧
    (stripeConnect (some "co_1")
        (stripeConnect (some "co_1") [] (Except.ok "acct_1")
          (fun _ _ => Except.ok "https://onb/1")).2.1
        (Except.ok "acct_2") (fun _ _ => Except.ok "https://onb/2")).1 =
      ConnectResponse.ok "https://onb/2" ∧
    ExtCall.linkCreate "acct_1" "co_1" ∈
      (stripeConnect (some "co_1") [] (Except.ok "acct_1")
        (fun _ _ => Except.ok "https://onb/1")).2.2 ∧
    ExtCall.linkCreate "acct_1" "co_1" ∈
      (stripeConnect (some "co_1")
        (stripeConnect (some "co_1") [] (Except.ok "acct_1")
          (fun _ _ => Except.ok "https://onb/1")).2.1
        (Except.ok "acct_2") (fun _ _ => Except.ok "https://onb/2")).2.2 ∧
    countCreates ((stripeConnect (some "co_1") [] (Except.ok "acct_1")
        (fun _ _ => Except.ok "https://onb/1")).2.2 ++
      (stripeConnect (some "co_1")
        (stripeConnect (some "co_1") [] (Except.ok "acct_1")
          (fun _ _ => Except.ok "https://onb/1")).2.1
        (Except.ok "acct_2") (fun _ _ => Except.ok "https://onb/2")).2.2) = 1 ∧
    (stripeConnect (some "co_1")
        (stripeConnect (some "co_1") [] (Except.ok "acct_1")
          (fun _ _ => Except.ok "https://onb/1")).2.1
        (Except.ok "acct_2") (fun _ _ => Except.ok "https://onb/2")).2.1 =
      (stripeConnect (some "co_1") [] (Except.ok "acct_1")
        (fun _ _ => Except.ok "https://onb/1")).2.1 := by
  exact onboarding_idempotent "co_1" "acct_1" "https://onb/1" "https://onb/2" []
    (Except.ok "acct_2") _ _ (by decide) (by decide) rfl rfl rfl

/-- Claim C4: once a company's `connectedAccountId` is populated (a nonempty
stored value), none of the operations reassigns it: after charge creation,
onboarding, status query, or the success/refresh pages, the directory still
maps that company to the same account id. -/
theorem account_id_never_reassigned (k a : String) (d : Dir)
    (hk : dirGet d k = some a) (ha : a ≠ "") :
    (∀ b spi, dirGet (createPaymentIntent b d spi).2.1 k = some a) ∧
    (∀ cu ca cl, dirGet (stripeConnect cu d ca cl).2.1 k = some a) ∧
    (∀ s retrieve, dirGet (accountStatus s d retrieve).2.1 k = some a) ∧
    (∀ q, dirGet (connectSuccess q d).2.1 k = some a) ∧
    dirGet (connectRefresh d).2.1 k = some a := by
  refine ⟨?_, ?_, ?_, ?_, ?_⟩
  · intro b spi
    by_cases hm : piMissing b <;> simp [createPaymentIntent, hm, hk]
  · intro cu ca cl
    by_cases hcu : truthyS cu
    · by_cases hf : truthyS (dirGet d (cu.getD ""))
      · simp [stripeConnect, hcu, hf, hk]
      · cases ca with
        | error m => simp [stripeConnect, hcu, hf, hk]
        | ok aid =>
          have hne : cu.getD "" ≠ k := by
            intro he
            rw [he, hk] at hf
            simp [truthyS, ha] at hf
          simp [stripeConnect, hcu, hf, dirGet_dirSet_ne _ _ _ _ hne, hk]
    · simp [stripeConnect, hcu, hk]
  · intro s retrieve
    by_cases hs : s = "" <;> by_cases hf : truthyS (dirGet d s) <;>
      simp [accountStatus, hs, hf, hk]
  · intro q; simp [connectSuccess, hk]
  · simp [connectRefresh, hk]

/-- Witness for C4: a populated entry survives a fresh onboarding call for a
different company and all read-only operations. -/
theorem account_id_never_reassigned_witness :
    dirGet (createPaymentIntent
        ⟨some 5000, some "usd", some "cus_1", some "pm_1", none, some "co_1"⟩
        [("co_1", "acct_7")] (fun _ => Except.ok ⟨"cs_1", "succeeded"⟩)).2.1 "co_1" =
      some "acct_7" ∧
    dirGet (stripeConnect (some "co_1") [("co_1", "acct_7")] (Except.ok "acct_9")
        (fun _ _ => Except.ok "https://onb")).2.1 "co_1" = some "acct_7" ∧
    dirGet (stripeConnect (some "co_2") [("co_1", "acct_7")] (Except.ok "acct_9")
        (fun _ _ => Except.ok "https://onb")).2.1 "co_1" = some "acct_7" ∧
    dirGet (accountStatus "co_1" [("co_1", "acct_7")]
        (fun aid => Except.ok ⟨aid, none, none, "caps", true, true, "reqs"⟩)).2.1 "co_1" =
      some "acct_7" ∧
    dirGet (connectSuccess (some "co_1") [("co_1", "acct_7")]).2.1 "co_1" = some "acct_7" ∧
    dirGet (connectRefresh [("co_1", "acct_7")]).2.1 "co_1" = some "acct_7" := by
  obtain ⟨hpi, hconn, hstat, hsucc, hrefr⟩ :=
    account_id_never_reassigned "co_1" "acct_7" [("co_1", "acct_7")] rfl (by decide)
  exact ⟨hpi _ _, hconn _ _ _, hconn _ _ _, hstat _ _, hsucc _, hrefr⟩

/-- Claim C6: the account-status query on a company with no directory entry
answers 404 and never calls the processor; on a company with an entry it
retrieves the live account and returns its fields verbatim (the handler's
`|| null` only turns an absent email or business type into `null`). -/
theorem account_status_lookup (u : String) (d : Dir)
    (retrieve : String → Except String AccountInfo)
    (hu : u ≠ "") :
    (dirGet d u = none →
       accountStatus u d retrieve =
         (StatusResponse.notFound "No Stripe account linked", d, [ExtCall.dirRead u]) ∧
       (∀ aid, ExtCall.accountsRetrieve aid ∉ (accountStatus u d retrieve).2.2)) ∧
    (∀ aid acct, dirGet d u = some aid → aid ≠ "" →
       retrieve aid = Except.ok acct →
       acct.email ≠ some "" → acct.business_type ≠ some "" →
       accountStatus u d retrieve =
         (StatusResponse.ok
            { accountId := acct.id, email := acct.email,
              businessType := acct.business_type, capabilities := acct.capabilities,
              chargesEnabled := acct.charges_enabled,
              payoutsEnabled := acct.payouts_enabled,
              requirements := acct.requirements },
          d, [ExtCall.dirRead u, ExtCall.accountsRetrieve aid])) := by
  constructor
  · intro hd
    constructor
    · simp [accountStatus, hu, hd, truthyS]
    · intro aid
      simp [accountStatus, hu, hd, truthyS]
  · intro aid acct hd hane hr hem hbt
    simp [accountStatus, hu, hd, truthyS, hane, hr,
      jsOrNull_eq_self acct.email hem, jsOrNull_eq_self acct.business_type hbt]

/-- Witness for C6: 404 with no processor call for an unknown company; verbatim
fields for a linked one. -/
theorem account_status_lookup_witness :
    (accountStatus "co_9" [("co_1", "acct_7")]
        (fun aid => Except.ok ⟨aid, some "a@b.c", some "llc", "caps", true, false, "reqs"⟩) =
      (StatusResponse.notFound "No Stripe account linked", [("co_1", "acct_7")],
       [ExtCall.dirRead "co_9"])) ∧
    (accountStatus "co_1" [("co_1", "acct_7")]
        (fun aid => Except.ok ⟨aid, some "a@b.c", some "llc", "caps", true, false, "reqs"⟩) =
      (StatusResponse.ok
         { accountId := "acct_7", email := some "a@b.c", businessType := some "llc",
           capabilities := "caps", chargesEnabled := true, payoutsEnabled := false,
           requirements := "reqs" },
       [("co_1", "acct_7")],
       [ExtCall.dirRead "co_1", ExtCall.accountsRetrieve "acct_7"])) := by
  constructor
  · exact ((account_status_lookup "co_9" [("co_1", "acct_7")] _ (by decide)).1 rfl).1
  · exact (account_status_lookup "co_1" [("co_1", "acct_7")] _ (by decide)).2
      "acct_7" ⟨"acct_7", some "a@b.c", some "llc", "caps", true, false, "reqs"⟩
      rfl (by decide) rfl (by decide) (by decide)

/-- Claim C8: whenever onboarding creates a new connected account (no truthy
directory entry), the directory write persisting the mapping occurs strictly
before the onboarding-link request in the trace of external calls. -/
theorem persist_before_link (u a : String) (d : Dir)
    (cl : String → String → Except String String)
    (hu : u ≠ "") (hd : truthyS (dirGet d u) = false) :
    (stripeConnect (some u) d (Except.ok a) cl).2.2 =
      [ExtCall.dirRead u, ExtCall.accountsCreate,
       ExtCall.dirWrite u a, ExtCall.linkCreate a u] ∧
    (∃ i j, i < j ∧
      (stripeConnect (some u) d (Except.ok a) cl).2.2.get? i =
        some (ExtCall.dirWrite u a) ∧
      (stripeConnect (some u) d (Except.ok a) cl).2.2.get? j =
        some (ExtCall.linkCreate a u)) := by
  have hu' : truthyS (some u) = true := by simp [truthyS, hu]
  have htr : (stripeConnect (some u) d (Except.ok a) cl).2.2 =
      [ExtCall.dirRead u, ExtCall.accountsCreate,
       ExtCall.dirWrite u a, ExtCall.linkCreate a u] := by
    simp [stripeConnect, hu', hd]
  refine ⟨htr, 2, 3, by omega, ?_, ?_⟩ <;> rw [htr] <;> rfl

/-- Witness for C8 at a concrete fresh onboarding. -/
theorem persist_before_link_witness :
    (stripeConnect (some "co_1") [] (Except.ok "acct_1")
        (fun _ _ => Except.ok "https://onb")).2.2 =
      [ExtCall.dirRead "co_1", ExtCall.accountsCreate,
       ExtCall.dirWrite "co_1" "acct_1", ExtCall.linkCreate "acct_1" "co_1"] ∧
    (∃ i j, i < j ∧
      (stripeConnect (some "co_1") [] (Except.ok "acct_1")
        (fun _ _ => Except.ok "https://onb")).2.2.get? i =
          some (ExtCall.dirWrite "co_1" "acct_1") ∧
      (stripeConnect (some "co_1") [] (Except.ok "acct_1")
        (fun _ _ => Except.ok "https://onb")).2.2.get? j =
          some (ExtCall.linkCreate "acct_1" "co_1")) := by
  exact persist_before_link "co_1" "acct_1" [] _ (by decide) rfl

end BluCollar
